import Mathlib

/-!
# DiscoveredCharacteristic: a shallow embedding

Embedding of `ble/DiscoveredCharacteristic.h` and `source/DiscoveredCharacteristic.cpp`.

* Bit-fields of width one are `Bool`; 16-bit handles, offsets and lengths are `Nat`
  (the code never does arithmetic on them); `serialize` is reduced modulo `2^8`
  because it returns a `uint8_t`.
* A `GattClient*` is `Option Nat`: `none` is the null pointer, `some g` the address `g`.
  What the object behind the pointer answers is a `GattClient` record of functions.
* Every call made on the client and every invocation of the completion callback is
  recorded, in order, in a list of `Effect`s.
* Calling a method through a null pointer has no defined behaviour: it is `none`.
-/

namespace BLE

/-! ## Types declared outside the two source files -/

/-- Modelled from the spec: the `ble_error_t` enumeration (declared in a header that is
not part of the sources). The constructors are the codes named in the two source files
(`BLE_ERROR_NONE`, `BLE_ERROR_INVALID_PARAM`, `BLE_STACK_BUSY`, `BLE_ERROR_INVALID_STATE`,
`BLE_ERROR_NO_MEM`, `BLE_ERROR_OPERATION_NOT_PERMITTED`) and the *ItemNotFound* code of the
error taxonomy of the specification. `BLE_ERROR_NONE` is the zero value. -/
inductive ble_error_t where
  | BLE_ERROR_NONE
  | BLE_ERROR_INVALID_PARAM
  | BLE_STACK_BUSY
  | BLE_ERROR_INVALID_STATE
  | BLE_ERROR_NO_MEM
  | BLE_ERROR_OPERATION_NOT_PERMITTED
  | BLE_ERROR_ITEM_NOT_FOUND
deriving DecidableEq, Repr

/-- The truth value of an error code in a C condition such as `if(err)`: every code but
the zero code `BLE_ERROR_NONE` is true. -/
def ble_error_t.toBool (e : ble_error_t) : Bool :=
  decide (e ≠ ble_error_t.BLE_ERROR_NONE)

/-- Modelled from the spec: the `UUID` value type (declared in `UUID.h`, not part of the
sources): a UUID is in short form (a 16-bit number) or in long form (a sequence of
bytes), and two UUIDs are equal when form and content agree. -/
inductive UUID where
  | short (value : Nat)
  | long (bytes : List Nat)
deriving DecidableEq, Repr

/-- Modelled from the spec: `UUID::setupLong`, which turns the UUID into the long form
holding the given bytes. -/
def UUID.setupLong (_self : UUID) (longUUID : List Nat) : UUID :=
  UUID.long longUUID

/-- Modelled from the spec: the well-known UUID constant that identifies the CCCD,
`DiscoveredCharacteristicDescriptor::CLIENT_CHARACTERISTIC_CONFIGURATION_UUID`
(declared outside the sources). The assigned number is 0x2902; nothing below depends on
its value. -/
def CLIENT_CHARACTERISTIC_CONFIGURATION_UUID : UUID :=
  UUID.short 0x2902

/-- Modelled from the spec: the invalid-handle constant `GattAttribute::INVALID_HANDLE`
(declared in `GattAttribute.h`, not part of the sources). -/
def INVALID_HANDLE : Nat := 0

/-- Modelled from the spec: the opcode of a client write, `Request` (acknowledged) or
`Command` (not acknowledged); `GattClient::WriteOp_t` in the code. -/
inductive WriteOp_t where
  | GATT_OP_WRITE_REQ
  | GATT_OP_WRITE_CMD
deriving DecidableEq, Repr

/-! ## `ble/DiscoveredCharacteristic.h` -/

/-- Embeds `DiscoveredCharacteristic::Properties_t`: seven one-bit fields. -/
structure Properties_t where
  _broadcast : Bool
  _read : Bool
  _writeWoResp : Bool
  _write : Bool
  _notify : Bool
  _indicate : Bool
  _authSignedWrite : Bool
deriving DecidableEq, Repr

namespace Properties_t

def broadcast (p : Properties_t) : Bool := p._broadcast
def read (p : Properties_t) : Bool := p._read
def writeWoResp (p : Properties_t) : Bool := p._writeWoResp
def write (p : Properties_t) : Bool := p._write
def notify (p : Properties_t) : Bool := p._notify
def indicate (p : Properties_t) : Bool := p._indicate
def authSignedWrite (p : Properties_t) : Bool := p._authSignedWrite

/-- Embeds `operator==` of `Properties_t`. -/
def eq (rhs lhs : Properties_t) : Bool :=
  (rhs._broadcast == lhs._broadcast) &&
  (rhs._read == lhs._read) &&
  (rhs._writeWoResp == lhs._writeWoResp) &&
  (rhs._write == lhs._write) &&
  (rhs._notify == lhs._notify) &&
  (rhs._indicate == lhs._indicate) &&
  (rhs._authSignedWrite == lhs._authSignedWrite)

/-- Embeds `operator!=` of `Properties_t`. -/
def ne (rhs lhs : Properties_t) : Bool :=
  !(eq rhs lhs)

end Properties_t

/-- Embeds `DiscoveredCharacteristic::SubscriptionFlags_t`: two one-bit fields, built by the
constructor `SubscriptionFlags_t(bool notify, bool indicate)`. -/
structure SubscriptionFlags_t where
  _notify : Bool
  _indicate : Bool
deriving DecidableEq, Repr

namespace SubscriptionFlags_t

def notify (f : SubscriptionFlags_t) : Bool := f._notify
def indicate (f : SubscriptionFlags_t) : Bool := f._indicate

/-- Embeds `serialize`: `(indicate() << 1) | (notify() << 0)`, returned as a `uint8_t`. -/
def serialize (f : SubscriptionFlags_t) : Nat :=
  (((f.indicate.toNat <<< 1) ||| (f.notify.toNat <<< 0)) % 2 ^ 8)

/-- Embeds `operator==` of `SubscriptionFlags_t`. -/
def eq (rhs lhs : SubscriptionFlags_t) : Bool :=
  (rhs._notify == lhs._notify) && (rhs._indicate == lhs._indicate)

/-- Embeds `operator!=` of `SubscriptionFlags_t`. -/
def ne (rhs lhs : SubscriptionFlags_t) : Bool :=
  !(eq rhs lhs)

end SubscriptionFlags_t

/-- The data members of `DiscoveredCharacteristic`. `gattc` is the client pointer. -/
structure DiscoveredCharacteristic where
  gattc : Option Nat
  uuid : UUID
  props : Properties_t
  declHandle : Nat
  valueHandle : Nat
  lastHandle : Nat
  connHandle : Nat
deriving DecidableEq, Repr

/-- Embeds `DiscoveredCharacteristic::SubscriptionCallbackParams_t`. -/
structure SubscriptionCallbackParams_t where
  characteristic : DiscoveredCharacteristic
  status : ble_error_t
  operation : SubscriptionFlags_t
deriving DecidableEq, Repr

/-- The type `SubscriptionCallback_t`: a function pointer with context, identified by a
number.
Invoking it is recorded as an `Effect.callback`. -/
abbrev SubscriptionCallback_t := Nat

/-- Modelled from the spec: a descriptor reference, a UUID and an attribute handle
(`DiscoveredCharacteristicDescriptor`, declared outside the sources). -/
structure DiscoveredCharacteristicDescriptor where
  uuid : UUID
  attributeHandle : Nat
deriving DecidableEq, Repr

/-- Modelled from the spec: what the client hands to the discovery-progress handler,
the characteristic and the descriptor just found
(`CharacteristicDescriptorDiscovery::DiscoveryCallbackParams_t`). -/
structure DiscoveryCallbackParams_t where
  characteristic : DiscoveredCharacteristic
  descriptor : DiscoveredCharacteristicDescriptor
deriving DecidableEq, Repr

/-- Modelled from the spec: what the client hands to the discovery-termination handler,
the characteristic and the termination status
(`CharacteristicDescriptorDiscovery::TerminationCallbackParams_t`). -/
structure TerminationCallbackParams_t where
  characteristic : DiscoveredCharacteristic
  status : ble_error_t
deriving DecidableEq, Repr

/-- The data members of `CCCDDiscoveryOperation`, set by its constructor. -/
structure CCCDDiscoveryOperation where
  _flags : SubscriptionFlags_t
  _callback : SubscriptionCallback_t
deriving DecidableEq, Repr

/-- Modelled from the spec: the discovery-progress callback handed to the client
(`CharacteristicDescriptorDiscovery::DiscoveryCallback_t`, declared outside the sources):
a function pointer of the caller, or the handler `whenDiscoveredCharacteristic` bound to
an operation. -/
inductive DiscoveryCallback_t where
  | fn (id : Nat)
  | whenDiscoveredCharacteristic (op : CCCDDiscoveryOperation)
deriving DecidableEq, Repr

/-- Modelled from the spec: the discovery-termination callback handed to the client
(`CharacteristicDescriptorDiscovery::TerminationCallback_t`, declared outside the
sources): a function pointer of the caller, or the handler `whenDiscoveryEnd` bound to an
operation. -/
inductive TerminationCallback_t where
  | fn (id : Nat)
  | whenDiscoveryEnd (op : CCCDDiscoveryOperation)
deriving DecidableEq, Repr

/-- Modelled from the spec: the answers of the external GATT client to the three
request-initiating calls of its interface (`GattClient.h` is not part of the sources).
Any error code may be answered. `terminateCharacteristicDescriptorsDiscovery` answers
nothing and so has no field. -/
structure GattClient where
  read : Nat → Nat → Nat → ble_error_t
  write : WriteOp_t → Nat → Nat → Nat → List Nat → ble_error_t
  discoverCharacteristicDescriptors :
    DiscoveredCharacteristic → DiscoveryCallback_t → TerminationCallback_t → ble_error_t

/-- What the code does to the outside: a call on the client at address `client`, or an
invocation of a completion callback. -/
inductive Effect where
  | read (client : Nat) (connHandle valueHandle offset : Nat)
  | write (client : Nat) (cmd : WriteOp_t) (connHandle valueHandle length : Nat)
      (value : List Nat)
  | discoverCharacteristicDescriptors (client : Nat)
      (characteristic : DiscoveredCharacteristic)
      (onCharacteristicDiscovered : DiscoveryCallback_t)
      (onTermination : TerminationCallback_t)
  | terminateCharacteristicDescriptorsDiscovery (client : Nat)
      (characteristic : DiscoveredCharacteristic)
  | callback (cb : SubscriptionCallback_t) (result : SubscriptionCallbackParams_t)
deriving DecidableEq, Repr

/-- The value a request-initiating member function returns and what it did. -/
structure Outcome where
  ret : ble_error_t
  trace : List Effect
deriving DecidableEq, Repr

/-- The value `launch` (and `setSubscriptionFlags`) returns, what it did, and the
operation that is allocated and registered with the client when it returns. -/
structure LaunchOutcome where
  ret : ble_error_t
  trace : List Effect
  live : Option CCCDDiscoveryOperation
deriving DecidableEq, Repr

namespace DiscoveredCharacteristic

/-- The default constructor. -/
def default : DiscoveredCharacteristic :=
  { gattc := none
    uuid := UUID.short 0
    props := ⟨false, false, false, false, false, false, false⟩
    declHandle := INVALID_HANDLE
    valueHandle := INVALID_HANDLE
    lastHandle := INVALID_HANDLE
    connHandle := 0 }

def getUUID (self : DiscoveredCharacteristic) : UUID := self.uuid
def getProperties (self : DiscoveredCharacteristic) : Properties_t := self.props
def getDeclHandle (self : DiscoveredCharacteristic) : Nat := self.declHandle
def getValueHandle (self : DiscoveredCharacteristic) : Nat := self.valueHandle
def getLastHandle (self : DiscoveredCharacteristic) : Nat := self.lastHandle
def getGattClient (self : DiscoveredCharacteristic) : Option Nat := self.gattc
def getConnectionHandle (self : DiscoveredCharacteristic) : Nat := self.connHandle

def setLastHandle (self : DiscoveredCharacteristic) (last : Nat) : DiscoveredCharacteristic :=
  { self with lastHandle := last }

def setupLongUUID (self : DiscoveredCharacteristic) (longUUID : List Nat) :
    DiscoveredCharacteristic :=
  { self with uuid := self.uuid.setupLong longUUID }

/-- Embeds `operator==` of `DiscoveredCharacteristic`. -/
def eq (rhs lhs : DiscoveredCharacteristic) : Bool :=
  (rhs.gattc == lhs.gattc) &&
  (rhs.uuid == lhs.uuid) &&
  (Properties_t.eq rhs.props lhs.props) &&
  (rhs.declHandle == lhs.declHandle) &&
  (rhs.valueHandle == lhs.valueHandle) &&
  (rhs.lastHandle == lhs.lastHandle) &&
  (rhs.connHandle == lhs.connHandle)

/-- Embeds `operator!=` of `DiscoveredCharacteristic`. -/
def ne (rhs lhs : DiscoveredCharacteristic) : Bool :=
  !(eq rhs lhs)

/-! ## `source/DiscoveredCharacteristic.cpp` -/

/-- Embeds `DiscoveredCharacteristic::read`; `cl` is the object `gattc` points to. -/
def read (cl : GattClient) (self : DiscoveredCharacteristic) (offset : Nat) : Outcome :=
  if !self.props.read then
    ⟨ble_error_t.BLE_ERROR_OPERATION_NOT_PERMITTED, []⟩
  else
    match self.gattc with
    | none => ⟨ble_error_t.BLE_ERROR_INVALID_STATE, []⟩
    | some g =>
      ⟨cl.read self.connHandle self.valueHandle offset,
        [Effect.read g self.connHandle self.valueHandle offset]⟩

/-- Embeds `DiscoveredCharacteristic::write`. -/
def write (cl : GattClient) (self : DiscoveredCharacteristic) (length : Nat)
    (value : List Nat) : Outcome :=
  if !self.props.write then
    ⟨ble_error_t.BLE_ERROR_OPERATION_NOT_PERMITTED, []⟩
  else
    match self.gattc with
    | none => ⟨ble_error_t.BLE_ERROR_INVALID_STATE, []⟩
    | some g =>
      ⟨cl.write WriteOp_t.GATT_OP_WRITE_REQ self.connHandle self.valueHandle length value,
        [Effect.write g WriteOp_t.GATT_OP_WRITE_REQ self.connHandle self.valueHandle
          length value]⟩

/-- Embeds `DiscoveredCharacteristic::writeWoResponse`. -/
def writeWoResponse (cl : GattClient) (self : DiscoveredCharacteristic) (length : Nat)
    (value : List Nat) : Outcome :=
  if !self.props.writeWoResp then
    ⟨ble_error_t.BLE_ERROR_OPERATION_NOT_PERMITTED, []⟩
  else
    match self.gattc with
    | none => ⟨ble_error_t.BLE_ERROR_INVALID_STATE, []⟩
    | some g =>
      ⟨cl.write WriteOp_t.GATT_OP_WRITE_CMD self.connHandle self.valueHandle length value,
        [Effect.write g WriteOp_t.GATT_OP_WRITE_CMD self.connHandle self.valueHandle
          length value]⟩

/-- Embeds `DiscoveredCharacteristic::discoverDescriptors`. -/
def discoverDescriptors (cl : GattClient) (self : DiscoveredCharacteristic)
    (onCharacteristicDiscovered : DiscoveryCallback_t)
    (onTermination : TerminationCallback_t) : Outcome :=
  match self.gattc with
  | none => ⟨ble_error_t.BLE_ERROR_INVALID_STATE, []⟩
  | some g =>
    let err := cl.discoverCharacteristicDescriptors self onCharacteristicDiscovered
      onTermination
    ⟨err, [Effect.discoverCharacteristicDescriptors g self onCharacteristicDiscovered
      onTermination]⟩

end DiscoveredCharacteristic

namespace CCCDDiscoveryOperation

/-- Embeds `CCCDDiscoveryOperation::launch`: the operation is allocated, descriptor discovery is
started with the two handlers of the operation, and the operation is deleted when the
start failed. -/
def launch (cl : GattClient) (characteristic : DiscoveredCharacteristic)
    (flags : SubscriptionFlags_t) (callback : SubscriptionCallback_t) : LaunchOutcome :=
  let op : CCCDDiscoveryOperation := ⟨flags, callback⟩
  let r := characteristic.discoverDescriptors cl
    (DiscoveryCallback_t.whenDiscoveredCharacteristic op)
    (TerminationCallback_t.whenDiscoveryEnd op)
  if r.ret.toBool then
    ⟨r.ret, r.trace, none⟩
  else
    ⟨r.ret, r.trace, some op⟩

/-- Embeds `CCCDDiscoveryOperation::whenDiscoveredCharacteristic`. The call goes through the
client pointer of the characteristic in `params`; through a null pointer it is `none`. -/
def whenDiscoveredCharacteristic (_self : CCCDDiscoveryOperation)
    (params : DiscoveryCallbackParams_t) : Option (List Effect) :=
  let characteristic := params.characteristic
  if params.descriptor.uuid = CLIENT_CHARACTERISTIC_CONFIGURATION_UUID then
    match characteristic.getGattClient with
    | none => none
    | some g => some [Effect.terminateCharacteristicDescriptorsDiscovery g characteristic]
  else
    some []

/-- Embeds `CCCDDiscoveryOperation::whenDiscoveryEnd`: the effects of the handler, and the
operation afterwards, which is `none` because the handler ends in `delete`. -/
def whenDiscoveryEnd (self : CCCDDiscoveryOperation)
    (params : TerminationCallbackParams_t) : List Effect × Option CCCDDiscoveryOperation :=
  let fx : List Effect :=
    if params.status.toBool then
      let result : SubscriptionCallbackParams_t :=
        ⟨params.characteristic, params.status, self._flags⟩
      [Effect.callback self._callback result]
    else
      []
  (fx, none)

end CCCDDiscoveryOperation

/-- Embeds `DiscoveredCharacteristic::setSubscriptionFlags`. -/
def DiscoveredCharacteristic.setSubscriptionFlags (cl : GattClient)
    (self : DiscoveredCharacteristic) (flags : SubscriptionFlags_t)
    (callback : SubscriptionCallback_t) : LaunchOutcome :=
  if !self.props.notify && !self.props.indicate then
    ⟨ble_error_t.BLE_ERROR_INVALID_PARAM, [], none⟩
  else if (flags.notify && !self.props.notify) ||
      (flags.indicate && !self.props.indicate) then
    ⟨ble_error_t.BLE_ERROR_INVALID_PARAM, [], none⟩
  else
    CCCDDiscoveryOperation.launch cl self flags callback

/-! ## Delivery of discovery events by the client -/

/-- An event the client delivers to the handlers registered by `launch`. -/
inductive DiscoveryEvent where
  | descriptorFound (params : DiscoveryCallbackParams_t)
  | terminated (params : TerminationCallbackParams_t)
deriving DecidableEq, Repr

/-- One event delivered to the registered operation: the effects of the handler and the
operation afterwards. An event for an operation that is already deleted has no defined
behaviour. -/
def deliver (live : Option CCCDDiscoveryOperation) (e : DiscoveryEvent) :
    Option (List Effect × Option CCCDDiscoveryOperation) :=
  match live, e with
  | none, _ => none
  | some op, DiscoveryEvent.descriptorFound p =>
    match op.whenDiscoveredCharacteristic p with
    | none => none
    | some fx => some (fx, some op)
  | some op, DiscoveryEvent.terminated p => some (op.whenDiscoveryEnd p)

/-- A sequence of events delivered in order; the effects are concatenated. -/
def deliverAll (live : Option CCCDDiscoveryOperation) :
    List DiscoveryEvent → Option (List Effect × Option CCCDDiscoveryOperation)
  | [] => some ([], live)
  | e :: es =>
    match deliver live e with
    | none => none
    | some (fx, next) =>
      match deliverAll next es with
      | none => none
      | some (rest, last) => some (fx ++ rest, last)

/-- Whether an effect is an invocation of the completion callback `cb`. -/
def Effect.isCallbackOf (cb : SubscriptionCallback_t) : Effect → Bool
  | Effect.callback cb' _ => cb' == cb
  | _ => false

/-- Whether an effect is a write request on the client. -/
def Effect.isWrite : Effect → Bool
  | Effect.write _ _ _ _ _ _ => true
  | _ => false

/-- How often the completion callback `cb` is invoked in a trace. -/
def callbackCount (cb : SubscriptionCallback_t) (trace : List Effect) : Nat :=
  (trace.filter (Effect.isCallbackOf cb)).length

/-! ## Concrete inputs -/

/-- A client that answers `BLE_ERROR_NONE` to every request. -/
def acceptingClient : GattClient :=
  { read := fun _ _ _ => ble_error_t.BLE_ERROR_NONE
    write := fun _ _ _ _ _ => ble_error_t.BLE_ERROR_NONE
    discoverCharacteristicDescriptors := fun _ _ _ => ble_error_t.BLE_ERROR_NONE }

/-- A client that answers `BLE_ERROR_INVALID_PARAM` to a descriptor-discovery request. -/
def invalidParamClient : GattClient :=
  { read := fun _ _ _ => ble_error_t.BLE_ERROR_NONE
    write := fun _ _ _ _ _ => ble_error_t.BLE_ERROR_NONE
    discoverCharacteristicDescriptors := fun _ _ _ => ble_error_t.BLE_ERROR_INVALID_PARAM }

/-- A client with a procedure in flight and no buffer left: it answers `BLE_STACK_BUSY`
to a read and to a discovery request and `BLE_ERROR_NO_MEM` to a write. -/
def busyClient : GattClient :=
  { read := fun _ _ _ => ble_error_t.BLE_STACK_BUSY
    write := fun _ _ _ _ _ => ble_error_t.BLE_ERROR_NO_MEM
    discoverCharacteristicDescriptors := fun _ _ _ => ble_error_t.BLE_STACK_BUSY }

/-- A characteristic with properties `notify=true`, all others false, on the client at
address 1, connection 3, handles 16, 17 and 20. -/
def notifyOnly : DiscoveredCharacteristic :=
  { gattc := some 1
    uuid := UUID.short 0x2A37
    props := ⟨false, false, false, false, true, false, false⟩
    declHandle := 16
    valueHandle := 17
    lastHandle := 20
    connHandle := 3 }

/-- A characteristic with the read, write and write-without-response bits set, on the
client at address 1, connection 3, handles 16, 17 and 20. -/
def readWrite : DiscoveredCharacteristic :=
  { gattc := some 1
    uuid := UUID.short 0x2A37
    props := ⟨false, true, true, true, false, false, false⟩
    declHandle := 16
    valueHandle := 17
    lastHandle := 20
    connHandle := 3 }

/-- A characteristic with every property bit set and a null client pointer. -/
def orphan : DiscoveredCharacteristic :=
  { gattc := none
    uuid := UUID.short 0x2A37
    props := ⟨true, true, true, true, true, true, true⟩
    declHandle := 16
    valueHandle := 17
    lastHandle := 20
    connHandle := 3 }

/-- The request `notify=true, indicate=false`. -/
def notifyRequest : SubscriptionFlags_t := ⟨true, false⟩

/-- A descriptor that is not the CCCD (the user description, 0x2901) at handle 18. -/
def userDescription : DiscoveredCharacteristicDescriptor :=
  ⟨UUID.short 0x2901, 18⟩

/-- The CCCD at handle 19. -/
def cccdAt19 : DiscoveredCharacteristicDescriptor :=
  ⟨CLIENT_CHARACTERISTIC_CONFIGURATION_UUID, 19⟩

/-- The condition under which the entry validation of `setSubscriptionFlags` rejects. -/
def rejects (props : Properties_t) (flags : SubscriptionFlags_t) : Prop :=
  (props.notify = false ∧ props.indicate = false) ∨
  (flags.notify = true ∧ props.notify = false) ∨
  (flags.indicate = true ∧ props.indicate = false)

instance (props : Properties_t) (flags : SubscriptionFlags_t) : Decidable (rejects props flags) := by
  unfold rejects; infer_instance

/-! ## Definitions for the serialization, invariant and run properties -/

/-- Modelled from the spec: the reading of a CCCD value back into subscription flags that
the round-trip property names, notify from bit 0 and indicate from bit 1. The sources
hold no such function; it is the inverse against which `serialize` is compared. -/
def deserialize (v : Nat) : SubscriptionFlags_t :=
  ⟨v.testBit 0, v.testBit 1⟩

/-- The bytes of what `serialize` returns. Its return type is `uint8_t`, so the
result is the one byte holding the value. -/
def SubscriptionFlags_t.serializeBytes (f : SubscriptionFlags_t) : List Nat :=
  [f.serialize]

/-- Modelled from the spec: the 2-byte little-endian CCCD value for a notify and an
indicate bit, "bit 0 = notify, bit 1 = indicate (other bits reserved/zero)": the low
byte first, then the high byte, which is zero. -/
def cccdValue (notify indicate : Bool) : List Nat :=
  [notify.toNat + 2 * indicate.toNat, 0]

/-- Modelled from the spec: the handle invariant of the data model. The handles are
ordered, and either all three are valid or the characteristic is the sentinel, with all
three handles the invalid-handle constant and no client reference. No function of the
sources states or checks it. -/
def handleInvariant (c : DiscoveredCharacteristic) : Prop :=
  c.declHandle ≤ c.valueHandle ∧ c.valueHandle ≤ c.lastHandle ∧
    ((c.declHandle ≠ INVALID_HANDLE ∧ c.valueHandle ≠ INVALID_HANDLE ∧
        c.lastHandle ≠ INVALID_HANDLE) ∨
      (c.declHandle = INVALID_HANDLE ∧ c.valueHandle = INVALID_HANDLE ∧
        c.lastHandle = INVALID_HANDLE ∧ c.gattc = none))

instance (c : DiscoveredCharacteristic) : Decidable (handleInvariant c) := by
  unfold handleInvariant; infer_instance

/-- A call of one of the two public member functions that modify a characteristic. -/
inductive PublicCall where
  | setLastHandle (last : Nat)
  | setupLongUUID (longUUID : List Nat)
deriving DecidableEq, Repr

/-- The characteristic after one modifying call. -/
def PublicCall.apply (c : DiscoveredCharacteristic) : PublicCall → DiscoveredCharacteristic
  | PublicCall.setLastHandle last => c.setLastHandle last
  | PublicCall.setupLongUUID longUUID => c.setupLongUUID longUUID

/-- The characteristic obtained from the default constructor by a sequence of modifying
calls, applied in order. -/
def obtained (calls : List PublicCall) : DiscoveredCharacteristic :=
  calls.foldl PublicCall.apply DiscoveredCharacteristic.default

/-- Whether the descriptor of a descriptor-found event is the CCCD. -/
def isCCCD (p : DiscoveryCallbackParams_t) : Bool :=
  decide (p.descriptor.uuid = CLIENT_CHARACTERISTIC_CONFIGURATION_UUID)

/-- One request to terminate the discovery for each event of the list whose descriptor is
the CCCD and whose characteristic has a client, in the order of the events. -/
def terminationRequests (ps : List DiscoveryCallbackParams_t) : List Effect :=
  ps.filterMap fun p =>
    if isCCCD p then
      p.characteristic.gattc.map fun g =>
        Effect.terminateCharacteristicDescriptorsDiscovery g p.characteristic
    else
      none

/-- Whether an effect is a request to terminate the descriptor discovery. -/
def Effect.isTerminate : Effect → Bool
  | Effect.terminateCharacteristicDescriptorsDiscovery _ _ => true
  | _ => false

/-- A second CCCD, at handle 20, as a malformed peer may report it. -/
def cccdAt20 : DiscoveredCharacteristicDescriptor :=
  ⟨CLIENT_CHARACTERISTIC_CONFIGURATION_UUID, 20⟩

/-! ## Shared lemmas -/

theorem ble_error_t.toBool_eq_true_iff (e : ble_error_t) :
    e.toBool = true ↔ e ≠ ble_error_t.BLE_ERROR_NONE := by
  cases e <;> simp [ble_error_t.toBool]

theorem rejects_iff_guards (props : Properties_t) (flags : SubscriptionFlags_t) :
    rejects props flags ↔
      ((!props.notify && !props.indicate) = true ∨
        ((flags.notify && !props.notify) || (flags.indicate && !props.indicate)) = true) := by
  unfold rejects
  cases props.notify <;> cases props.indicate <;> cases flags.notify <;>
    cases flags.indicate <;> simp

theorem setSubscriptionFlags_of_rejects (cl : GattClient) (c : DiscoveredCharacteristic)
    (flags : SubscriptionFlags_t) (cb : SubscriptionCallback_t)
    (h : rejects c.props flags) :
    c.setSubscriptionFlags cl flags cb = ⟨ble_error_t.BLE_ERROR_INVALID_PARAM, [], none⟩ := by
  rcases (rejects_iff_guards c.props flags).1 h with h1 | h2
  · simp only [DiscoveredCharacteristic.setSubscriptionFlags, h1, if_true]
  · by_cases h1 : (!c.props.notify && !c.props.indicate) = true
    · simp only [DiscoveredCharacteristic.setSubscriptionFlags, h1, if_true]
    · simp only [DiscoveredCharacteristic.setSubscriptionFlags, h1, h2, if_true, if_false]
      rfl

theorem setSubscriptionFlags_of_not_rejects (cl : GattClient) (c : DiscoveredCharacteristic)
    (flags : SubscriptionFlags_t) (cb : SubscriptionCallback_t)
    (h : ¬ rejects c.props flags) :
    c.setSubscriptionFlags cl flags cb = CCCDDiscoveryOperation.launch cl c flags cb := by
  have h0 := mt (rejects_iff_guards c.props flags).2 h
  have h1 : ¬ ((!c.props.notify && !c.props.indicate) = true) := fun x => h0 (Or.inl x)
  have h2 : ¬ (((flags.notify && !c.props.notify) ||
      (flags.indicate && !c.props.indicate)) = true) := fun x => h0 (Or.inr x)
  simp only [DiscoveredCharacteristic.setSubscriptionFlags, h1, h2, if_false]
  rfl

theorem launch_null_client (cl : GattClient) (c : DiscoveredCharacteristic)
    (flags : SubscriptionFlags_t) (cb : SubscriptionCallback_t) (h : c.gattc = none) :
    CCCDDiscoveryOperation.launch cl c flags cb =
      ⟨ble_error_t.BLE_ERROR_INVALID_STATE, [], none⟩ := by
  simp [CCCDDiscoveryOperation.launch, DiscoveredCharacteristic.discoverDescriptors, h,
    ble_error_t.toBool]

theorem launch_trace_of_client (cl : GattClient) (c : DiscoveredCharacteristic)
    (flags : SubscriptionFlags_t) (cb : SubscriptionCallback_t) (g : Nat)
    (h : c.gattc = some g) :
    (CCCDDiscoveryOperation.launch cl c flags cb).trace =
      [Effect.discoverCharacteristicDescriptors g c
        (DiscoveryCallback_t.whenDiscoveredCharacteristic ⟨flags, cb⟩)
        (TerminationCallback_t.whenDiscoveryEnd ⟨flags, cb⟩)] := by
  simp only [CCCDDiscoveryOperation.launch, DiscoveredCharacteristic.discoverDescriptors, h]
  split <;> rfl

theorem launch_live (cl : GattClient) (c : DiscoveredCharacteristic)
    (flags : SubscriptionFlags_t) (cb : SubscriptionCallback_t)
    (op : CCCDDiscoveryOperation)
    (h : (CCCDDiscoveryOperation.launch cl c flags cb).live = some op) :
    op = ⟨flags, cb⟩ := by
  simp only [CCCDDiscoveryOperation.launch] at h
  split at h
  · simp at h
  · simpa using h.symm

/-! ## The subscription operation -/

/-- C1 (evaluation of the code at the failing input): `setSubscriptionFlags` on the
notify-only characteristic with an accepting client returns `BLE_ERROR_NONE` and leaves the
operation registered; when descriptor discovery then terminates with status
`BLE_ERROR_NONE`, the termination handler deletes the operation and has invoked the
completion callback zero times. -/
theorem launched_success_termination_never_calls_back :
    (notifyOnly.setSubscriptionFlags acceptingClient notifyRequest 7).ret =
        ble_error_t.BLE_ERROR_NONE ∧
      (notifyOnly.setSubscriptionFlags acceptingClient notifyRequest 7).live =
        some ⟨notifyRequest, 7⟩ ∧
      deliverAll (notifyOnly.setSubscriptionFlags acceptingClient notifyRequest 7).live
          [DiscoveryEvent.terminated ⟨notifyOnly, ble_error_t.BLE_ERROR_NONE⟩] =
        some ([], none) ∧
      (deliverAll (notifyOnly.setSubscriptionFlags acceptingClient notifyRequest 7).live
          [DiscoveryEvent.terminated ⟨notifyOnly, ble_error_t.BLE_ERROR_NONE⟩]).map
        (fun r => callbackCount 7 r.1) = some 0 := by
  decide

/-- C2 (counterexample): with the notify-only characteristic and the request
`notify=true, indicate=false` none of the three rejecting conditions holds, yet
`setSubscriptionFlags` returns `BLE_ERROR_INVALID_PARAM` when the client answers that code
to the discovery request; descriptor discovery has been launched on the client. -/
theorem setSubscriptionFlags_invalid_param_from_client :
    ¬ rejects notifyOnly.props notifyRequest ∧
      (notifyOnly.setSubscriptionFlags invalidParamClient notifyRequest 7).ret =
        ble_error_t.BLE_ERROR_INVALID_PARAM ∧
      (notifyOnly.setSubscriptionFlags invalidParamClient notifyRequest 7).trace =
        [Effect.discoverCharacteristicDescriptors 1 notifyOnly
          (DiscoveryCallback_t.whenDiscoveredCharacteristic ⟨notifyRequest, 7⟩)
          (TerminationCallback_t.whenDiscoveryEnd ⟨notifyRequest, 7⟩)] := by
  decide

/-- C2 (amended): `setSubscriptionFlags` returns `BLE_ERROR_INVALID_PARAM` without any
call on the client if and only if the characteristic supports neither notify nor
indicate, or the flags request notify without notify support, or indicate without
indicate support. In that case nothing was done, no operation stays allocated (so no
handler can ever invoke the callback), and otherwise the call is exactly `launch`. In
particular the empty request passes whenever notify or indicate is supported. -/
theorem setSubscriptionFlags_rejects_iff (cl : GattClient) (c : DiscoveredCharacteristic)
    (flags : SubscriptionFlags_t) (cb : SubscriptionCallback_t) :
    (((c.setSubscriptionFlags cl flags cb).ret = ble_error_t.BLE_ERROR_INVALID_PARAM ∧
        (c.setSubscriptionFlags cl flags cb).trace = []) ↔ rejects c.props flags) ∧
      (rejects c.props flags →
        c.setSubscriptionFlags cl flags cb =
          ⟨ble_error_t.BLE_ERROR_INVALID_PARAM, [], none⟩) ∧
      (¬ rejects c.props flags →
        c.setSubscriptionFlags cl flags cb = CCCDDiscoveryOperation.launch cl c flags cb) ∧
      ((c.props.notify = true ∨ c.props.indicate = true) →
        ¬ rejects c.props ⟨false, false⟩) := by
  refine ⟨⟨?_, ?_⟩, setSubscriptionFlags_of_rejects cl c flags cb,
    setSubscriptionFlags_of_not_rejects cl c flags cb, ?_⟩
  · rintro ⟨hret, htrace⟩
    by_contra hn
    rw [setSubscriptionFlags_of_not_rejects cl c flags cb hn] at hret htrace
    cases hg : c.gattc with
    | none =>
      rw [launch_null_client cl c flags cb hg] at hret
      exact absurd hret (by decide)
    | some g =>
      rw [launch_trace_of_client cl c flags cb g hg] at htrace
      exact absurd htrace (by simp)
  · intro h
    rw [setSubscriptionFlags_of_rejects cl c flags cb h]
    exact ⟨rfl, rfl⟩
  · intro h
    unfold rejects
    rcases h with h | h <;> simp [h, SubscriptionFlags_t.notify, SubscriptionFlags_t.indicate]

/-- C3 (evaluation of the code at the scenario of the claim): properties `notify=true`,
others false; request `notify=true, indicate=false`; the launch succeeds; the client
reports a non-CCCD descriptor, then the CCCD, then terminates with `BLE_ERROR_NONE`. The
only effect is the request to terminate the discovery: the completion callback is not
invoked, and no write is issued. -/
theorem scenario_cccd_found_reports_nothing :
    (notifyOnly.setSubscriptionFlags acceptingClient notifyRequest 7).ret =
        ble_error_t.BLE_ERROR_NONE ∧
      deliverAll (notifyOnly.setSubscriptionFlags acceptingClient notifyRequest 7).live
          [DiscoveryEvent.descriptorFound ⟨notifyOnly, userDescription⟩,
           DiscoveryEvent.descriptorFound ⟨notifyOnly, cccdAt19⟩,
           DiscoveryEvent.terminated ⟨notifyOnly, ble_error_t.BLE_ERROR_NONE⟩] =
        some ([Effect.terminateCharacteristicDescriptorsDiscovery 1 notifyOnly], none) ∧
      (deliverAll (notifyOnly.setSubscriptionFlags acceptingClient notifyRequest 7).live
          [DiscoveryEvent.descriptorFound ⟨notifyOnly, userDescription⟩,
           DiscoveryEvent.descriptorFound ⟨notifyOnly, cccdAt19⟩,
           DiscoveryEvent.terminated ⟨notifyOnly, ble_error_t.BLE_ERROR_NONE⟩]).map
        (fun r => callbackCount 7 r.1) = some 0 := by
  decide

/-- C4 (evaluation of the code at the failing input): after a successful launch the
client reports one descriptor that is not the CCCD and terminates with `BLE_ERROR_NONE`.
The handlers have no effect at all: no callback is invoked, with `ItemNotFound` or with
any other status, and the operation is deleted. -/
theorem scenario_cccd_absent_reports_nothing :
    (notifyOnly.setSubscriptionFlags acceptingClient notifyRequest 7).ret =
        ble_error_t.BLE_ERROR_NONE ∧
      deliverAll (notifyOnly.setSubscriptionFlags acceptingClient notifyRequest 7).live
          [DiscoveryEvent.descriptorFound ⟨notifyOnly, userDescription⟩,
           DiscoveryEvent.terminated ⟨notifyOnly, ble_error_t.BLE_ERROR_NONE⟩] =
        some ([], none) := by
  decide

/-- C5 (evaluation of the code at the failing input): for the CCCD at handle 19 and the
request `notify=true, indicate=false` (serialized 0x0001) the discovery-progress handler
makes one call on the client, the request to terminate the discovery; it issues no write
request. -/
theorem whenDiscoveredCharacteristic_cccd_issues_no_write :
    notifyRequest.serialize = 1 ∧
      CCCDDiscoveryOperation.whenDiscoveredCharacteristic ⟨notifyRequest, 7⟩
          ⟨notifyOnly, cccdAt19⟩ =
        some [Effect.terminateCharacteristicDescriptorsDiscovery 1 notifyOnly] ∧
      [Effect.terminateCharacteristicDescriptorsDiscovery 1 notifyOnly].filter Effect.isWrite
        = [] := by
  decide

/-- C6: for a termination event whose status is a failure (not `BLE_ERROR_NONE`), the
discovery-termination handler invokes the completion callback of the operation exactly
once, with the characteristic of the event, the status of the event and the flags of the
operation, and deletes the operation; the flags and the callback of a launched operation
are those passed to `setSubscriptionFlags`. -/
theorem whenDiscoveryEnd_reports_failure (op : CCCDDiscoveryOperation)
    (params : TerminationCallbackParams_t)
    (h : params.status ≠ ble_error_t.BLE_ERROR_NONE) :
    op.whenDiscoveryEnd params =
        ([Effect.callback op._callback ⟨params.characteristic, params.status, op._flags⟩],
          none) ∧
      callbackCount op._callback (op.whenDiscoveryEnd params).1 = 1 ∧
      ∀ (cl : GattClient) (c : DiscoveredCharacteristic) (flags : SubscriptionFlags_t)
        (cb : SubscriptionCallback_t),
        (c.setSubscriptionFlags cl flags cb).live = some op →
          op._flags = flags ∧ op._callback = cb := by
  have hb : params.status.toBool = true := (ble_error_t.toBool_eq_true_iff _).2 h
  have he : op.whenDiscoveryEnd params =
      ([Effect.callback op._callback ⟨params.characteristic, params.status, op._flags⟩],
        none) := by
    simp [CCCDDiscoveryOperation.whenDiscoveryEnd, hb]
  refine ⟨he, ?_, ?_⟩
  · rw [he]
    simp [callbackCount, Effect.isCallbackOf]
  · intro cl c flags cb hl
    by_cases hr : rejects c.props flags
    · rw [setSubscriptionFlags_of_rejects cl c flags cb hr] at hl
      simp at hl
    · rw [setSubscriptionFlags_of_not_rejects cl c flags cb hr] at hl
      have := launch_live cl c flags cb op hl
      subst this
      exact ⟨rfl, rfl⟩

/-- C6 (witness): a connection drop reported as `BLE_ERROR_INVALID_STATE` to the operation
launched with `notify=true, indicate=false` and callback 7. -/
theorem whenDiscoveryEnd_reports_failure_witness :
    CCCDDiscoveryOperation.whenDiscoveryEnd ⟨notifyRequest, 7⟩
        ⟨notifyOnly, ble_error_t.BLE_ERROR_INVALID_STATE⟩ =
      ([Effect.callback 7 ⟨notifyOnly, ble_error_t.BLE_ERROR_INVALID_STATE, notifyRequest⟩],
        none) :=
  (whenDiscoveryEnd_reports_failure ⟨notifyRequest, 7⟩
    ⟨notifyOnly, ble_error_t.BLE_ERROR_INVALID_STATE⟩ (by decide)).1

/-! ## The value accessors -/

/-- C7: when the read bit of the properties is false, whatever the client pointer, the
handles, the other bits and the answers of the client, `read` returns
`BLE_ERROR_OPERATION_NOT_PERMITTED` for every offset and makes no call on the client. -/
theorem read_not_permitted (cl : GattClient) (c : DiscoveredCharacteristic) (offset : Nat)
    (h : c.props.read = false) :
    c.read cl offset = ⟨ble_error_t.BLE_ERROR_OPERATION_NOT_PERMITTED, []⟩ := by
  simp [DiscoveredCharacteristic.read, h]

/-- C7 (witness): the notify-only characteristic, which has a client, read at offset 5. -/
theorem read_not_permitted_witness :
    notifyOnly.read acceptingClient 5 = ⟨ble_error_t.BLE_ERROR_OPERATION_NOT_PERMITTED, []⟩ :=
  read_not_permitted acceptingClient notifyOnly 5 (by decide)

/-- C8 (counterexample): the default-constructed characteristic has a null client
pointer, and `read` on it returns `BLE_ERROR_OPERATION_NOT_PERMITTED`, not
`BLE_ERROR_INVALID_STATE`; likewise `setSubscriptionFlags` returns
`BLE_ERROR_INVALID_PARAM`. -/
theorem null_client_read_not_invalid_state :
    DiscoveredCharacteristic.default.gattc = none ∧
      (DiscoveredCharacteristic.default.read acceptingClient 0).ret =
        ble_error_t.BLE_ERROR_OPERATION_NOT_PERMITTED ∧
      (DiscoveredCharacteristic.default.read acceptingClient 0).ret ≠
        ble_error_t.BLE_ERROR_INVALID_STATE ∧
      (DiscoveredCharacteristic.default.setSubscriptionFlags acceptingClient notifyRequest 7).ret
        = ble_error_t.BLE_ERROR_INVALID_PARAM := by
  decide

/-- C8 (amended): on a characteristic with a null client pointer no operation makes a
call on the client or invokes a callback, and `setSubscriptionFlags` leaves no operation
allocated. `discoverDescriptors` returns `BLE_ERROR_INVALID_STATE`; `read`, `write` and
`writeWoResponse` return `BLE_ERROR_INVALID_STATE` when their property bit is set and
`BLE_ERROR_OPERATION_NOT_PERMITTED` when it is not; `setSubscriptionFlags` returns
`BLE_ERROR_INVALID_STATE` when the flags pass the validation and
`BLE_ERROR_INVALID_PARAM` when they do not. -/
theorem null_client_operations (cl : GattClient) (c : DiscoveredCharacteristic)
    (h : c.gattc = none) :
    (∀ offset, c.read cl offset =
        ⟨if c.props.read then ble_error_t.BLE_ERROR_INVALID_STATE
          else ble_error_t.BLE_ERROR_OPERATION_NOT_PERMITTED, []⟩) ∧
      (∀ length value, c.write cl length value =
        ⟨if c.props.write then ble_error_t.BLE_ERROR_INVALID_STATE
          else ble_error_t.BLE_ERROR_OPERATION_NOT_PERMITTED, []⟩) ∧
      (∀ length value, c.writeWoResponse cl length value =
        ⟨if c.props.writeWoResp then ble_error_t.BLE_ERROR_INVALID_STATE
          else ble_error_t.BLE_ERROR_OPERATION_NOT_PERMITTED, []⟩) ∧
      (∀ onDiscovered onTermination,
        c.discoverDescriptors cl onDiscovered onTermination =
          ⟨ble_error_t.BLE_ERROR_INVALID_STATE, []⟩) ∧
      (∀ flags cb, c.setSubscriptionFlags cl flags cb =
        ⟨if rejects c.props flags then ble_error_t.BLE_ERROR_INVALID_PARAM
          else ble_error_t.BLE_ERROR_INVALID_STATE, [], none⟩) := by
  refine ⟨?_, ?_, ?_, ?_, ?_⟩
  · intro offset
    cases hb : c.props.read <;> simp [DiscoveredCharacteristic.read, hb, h]
  · intro length value
    cases hb : c.props.write <;> simp [DiscoveredCharacteristic.write, hb, h]
  · intro length value
    cases hb : c.props.writeWoResp <;> simp [DiscoveredCharacteristic.writeWoResponse, hb, h]
  · intro onDiscovered onTermination
    simp [DiscoveredCharacteristic.discoverDescriptors, h]
  · intro flags cb
    by_cases hr : rejects c.props flags
    · rw [setSubscriptionFlags_of_rejects cl c flags cb hr, if_pos hr]
    · rw [setSubscriptionFlags_of_not_rejects cl c flags cb hr,
        launch_null_client cl c flags cb h, if_neg hr]

/-- C8 (witness): the characteristic with every property bit set and a null client
pointer returns `BLE_ERROR_INVALID_STATE` from all five operations and contacts nobody. -/
theorem null_client_operations_witness :
    orphan.read busyClient 0 = ⟨ble_error_t.BLE_ERROR_INVALID_STATE, []⟩ ∧
      orphan.write busyClient 2 [1, 0] = ⟨ble_error_t.BLE_ERROR_INVALID_STATE, []⟩ ∧
      orphan.writeWoResponse busyClient 2 [1, 0] =
        ⟨ble_error_t.BLE_ERROR_INVALID_STATE, []⟩ ∧
      orphan.discoverDescriptors busyClient (DiscoveryCallback_t.fn 1)
          (TerminationCallback_t.fn 2) = ⟨ble_error_t.BLE_ERROR_INVALID_STATE, []⟩ ∧
      orphan.setSubscriptionFlags busyClient notifyRequest 7 =
        ⟨ble_error_t.BLE_ERROR_INVALID_STATE, [], none⟩ := by
  have w := null_client_operations busyClient orphan rfl
  exact ⟨w.1 0, w.2.1 2 [1, 0], w.2.2.1 2 [1, 0],
    w.2.2.2.1 (DiscoveryCallback_t.fn 1) (TerminationCallback_t.fn 2),
    w.2.2.2.2 notifyRequest 7⟩

/-- C9: `write` returns `BLE_ERROR_OPERATION_NOT_PERMITTED` without contacting the client
exactly when the write bit is false, and `writeWoResponse` exactly when the writeWoResp
bit is false; the outcome of `write` is the same for any two property sets that agree on
the write bit, and the outcome of `writeWoResponse` for any two that agree on the
writeWoResp bit. -/
theorem write_gates_own_bit (cl : GattClient) (c : DiscoveredCharacteristic) (length : Nat)
    (value : List Nat) :
    (c.write cl length value = ⟨ble_error_t.BLE_ERROR_OPERATION_NOT_PERMITTED, []⟩ ↔
        c.props.write = false) ∧
      (c.writeWoResponse cl length value =
          ⟨ble_error_t.BLE_ERROR_OPERATION_NOT_PERMITTED, []⟩ ↔
        c.props.writeWoResp = false) ∧
      (∀ p : Properties_t, p.write = c.props.write →
        DiscoveredCharacteristic.write cl { c with props := p } length value =
          c.write cl length value) ∧
      (∀ p : Properties_t, p.writeWoResp = c.props.writeWoResp →
        DiscoveredCharacteristic.writeWoResponse cl { c with props := p } length value =
          c.writeWoResponse cl length value) := by
  refine ⟨?_, ?_, ?_, ?_⟩
  · cases hb : c.props.write <;> cases hg : c.gattc <;>
      simp [DiscoveredCharacteristic.write, hb, hg]
  · cases hb : c.props.writeWoResp <;> cases hg : c.gattc <;>
      simp [DiscoveredCharacteristic.writeWoResponse, hb, hg]
  · intro p hp
    simp [DiscoveredCharacteristic.write, hp]
  · intro p hp
    simp [DiscoveredCharacteristic.writeWoResponse, hp]

/-- C10: on a characteristic with a client at address `g`, an accessor whose property
bit is set makes exactly one call on that client and returns its answer unchanged:
`read` calls `read(connHandle, valueHandle, offset)`, `write` calls `write` with
`GATT_OP_WRITE_REQ` and `writeWoResponse` calls `write` with `GATT_OP_WRITE_CMD`, both on
`(connHandle, valueHandle, length, value)`. -/
theorem accessors_delegate (cl : GattClient) (c : DiscoveredCharacteristic) (g : Nat)
    (hg : c.gattc = some g) :
    (c.props.read = true → ∀ offset, c.read cl offset =
        ⟨cl.read c.connHandle c.valueHandle offset,
          [Effect.read g c.connHandle c.valueHandle offset]⟩) ∧
      (c.props.write = true → ∀ length value, c.write cl length value =
        ⟨cl.write WriteOp_t.GATT_OP_WRITE_REQ c.connHandle c.valueHandle length value,
          [Effect.write g WriteOp_t.GATT_OP_WRITE_REQ c.connHandle c.valueHandle length
            value]⟩) ∧
      (c.props.writeWoResp = true → ∀ length value, c.writeWoResponse cl length value =
        ⟨cl.write WriteOp_t.GATT_OP_WRITE_CMD c.connHandle c.valueHandle length value,
          [Effect.write g WriteOp_t.GATT_OP_WRITE_CMD c.connHandle c.valueHandle length
            value]⟩) := by
  refine ⟨?_, ?_, ?_⟩
  · intro hb offset
    simp [DiscoveredCharacteristic.read, hb, hg]
  · intro hb length value
    simp [DiscoveredCharacteristic.write, hb, hg]
  · intro hb length value
    simp [DiscoveredCharacteristic.writeWoResponse, hb, hg]

/-- C10 (witness): the characteristic with the three access bits set (declaration handle
16, value handle 17, last handle 20, connection 3, client at address 1) on a client that
answers `BLE_STACK_BUSY` to a read and `BLE_ERROR_NO_MEM` to a write. -/
theorem accessors_delegate_witness :
    readWrite.read busyClient 4 = ⟨ble_error_t.BLE_STACK_BUSY, [Effect.read 1 3 17 4]⟩ ∧
      readWrite.write busyClient 2 [1, 0] =
        ⟨ble_error_t.BLE_ERROR_NO_MEM,
          [Effect.write 1 WriteOp_t.GATT_OP_WRITE_REQ 3 17 2 [1, 0]]⟩ ∧
      readWrite.writeWoResponse busyClient 2 [1, 0] =
        ⟨ble_error_t.BLE_ERROR_NO_MEM,
          [Effect.write 1 WriteOp_t.GATT_OP_WRITE_CMD 3 17 2 [1, 0]]⟩ := by
  have w := accessors_delegate busyClient readWrite 1 rfl
  exact ⟨w.1 rfl 4, w.2.1 rfl 2 [1, 0], w.2.2 rfl 2 [1, 0]⟩

/-! ## Descriptor discovery and the launch -/

/-- C11: `discoverDescriptors` looks at no property bit. For every characteristic, whatever
its properties, it returns `BLE_ERROR_INVALID_STATE` without contacting the client if and
only if the client pointer is null; with a client at address `g` it makes the one call
`discoverCharacteristicDescriptors(*this, onCharacteristicDiscovered, onTermination)` and
returns the answer of the client; this holds as well after the properties are replaced
by any other property set, the one with all seven bits false included. -/
theorem discoverDescriptors_only_needs_client (cl : GattClient)
    (c : DiscoveredCharacteristic) (onDiscovered : DiscoveryCallback_t)
    (onTermination : TerminationCallback_t) :
    (c.discoverDescriptors cl onDiscovered onTermination =
        ⟨ble_error_t.BLE_ERROR_INVALID_STATE, []⟩ ↔ c.gattc = none) ∧
      (∀ g, c.gattc = some g →
        c.discoverDescriptors cl onDiscovered onTermination =
          ⟨cl.discoverCharacteristicDescriptors c onDiscovered onTermination,
            [Effect.discoverCharacteristicDescriptors g c onDiscovered onTermination]⟩) ∧
      (∀ (p : Properties_t) (g : Nat), c.gattc = some g →
        DiscoveredCharacteristic.discoverDescriptors cl { c with props := p } onDiscovered
            onTermination =
          ⟨cl.discoverCharacteristicDescriptors { c with props := p } onDiscovered
              onTermination,
            [Effect.discoverCharacteristicDescriptors g { c with props := p } onDiscovered
              onTermination]⟩) ∧
      (∀ p : Properties_t, c.gattc = none →
        DiscoveredCharacteristic.discoverDescriptors cl { c with props := p } onDiscovered
            onTermination = ⟨ble_error_t.BLE_ERROR_INVALID_STATE, []⟩) := by
  refine ⟨?_, ?_, ?_, ?_⟩
  · cases hg : c.gattc <;> simp [DiscoveredCharacteristic.discoverDescriptors, hg]
  · intro g hg
    simp [DiscoveredCharacteristic.discoverDescriptors, hg]
  · intro p g hg
    simp [DiscoveredCharacteristic.discoverDescriptors, hg]
  · intro p hg
    simp [DiscoveredCharacteristic.discoverDescriptors, hg]

/-- C13 (counterexample): for the flags built from `notify=true, indicate=false`,
`serialize` returns the single byte 1, while the 2-byte little-endian CCCD value is the
two bytes 1, 0: the high byte is not part of what `serialize` yields. -/
theorem serialize_yields_one_byte :
    (SubscriptionFlags_t.mk true false).serializeBytes = [1] ∧
      cccdValue true false = [1, 0] ∧
      (SubscriptionFlags_t.mk true false).serializeBytes ≠ cccdValue true false := by
  decide

/-- C13 (amended): for the flags built from any `notify` and `indicate`, `serialize`
yields the one byte `notify + 2 * indicate`, one of 0, 1, 2, 3: its bit 0 is the notify
argument, its bit 1 the indicate argument and every other bit is zero. That byte is the
low byte of the 2-byte little-endian CCCD value, whose high byte is zero and is not
produced by `serialize`. -/
theorem serialize_cccd_value (notify indicate : Bool) :
    (SubscriptionFlags_t.mk notify indicate).serialize =
        notify.toNat + 2 * indicate.toNat ∧
      (SubscriptionFlags_t.mk notify indicate).serialize < 4 ∧
      (SubscriptionFlags_t.mk notify indicate).serialize.testBit 0 = notify ∧
      (SubscriptionFlags_t.mk notify indicate).serialize.testBit 1 = indicate ∧
      (∀ i, 2 ≤ i → (SubscriptionFlags_t.mk notify indicate).serialize.testBit i = false) ∧
      (SubscriptionFlags_t.mk notify indicate).serializeBytes =
        [notify.toNat + 2 * indicate.toNat] ∧
      cccdValue notify indicate =
        (SubscriptionFlags_t.mk notify indicate).serializeBytes ++ [0] := by
  have hlt : (SubscriptionFlags_t.mk notify indicate).serialize < 4 := by
    cases notify <;> cases indicate <;> decide
  refine ⟨?_, hlt, ?_, ?_, ?_, ?_, ?_⟩
  · cases notify <;> cases indicate <;> decide
  · cases notify <;> cases indicate <;> decide
  · cases notify <;> cases indicate <;> decide
  · intro i hi
    apply Nat.testBit_lt_two_pow
    calc (SubscriptionFlags_t.mk notify indicate).serialize < 2 ^ 2 := hlt
      _ ≤ 2 ^ i := Nat.pow_le_pow_right (by decide) hi
  · cases notify <;> cases indicate <;> decide
  · cases notify <;> cases indicate <;> decide

/-- C14: reading the serialized value back gives the flags again, both as values and
under `operator==` of `SubscriptionFlags_t`; and two flags values serialize to the same
number exactly when `operator==` holds between them. -/
theorem serialize_roundtrip (f : SubscriptionFlags_t) :
    deserialize f.serialize = f ∧
      SubscriptionFlags_t.eq (deserialize f.serialize) f = true ∧
      ∀ g : SubscriptionFlags_t,
        f.serialize = g.serialize ↔ SubscriptionFlags_t.eq f g = true := by
  refine ⟨?_, ?_, ?_⟩
  · rcases f with ⟨n, i⟩
    cases n <;> cases i <;> decide
  · rcases f with ⟨n, i⟩
    cases n <;> cases i <;> decide
  · intro g
    rcases f with ⟨n, i⟩
    rcases g with ⟨m, j⟩
    cases n <;> cases i <;> cases m <;> cases j <;> decide

/-! ## Equality -/

theorem Properties_t.eq_true_iff_props (p q : Properties_t) :
    Properties_t.eq p q = true ↔ p = q := by
  rcases p with ⟨a1, a2, a3, a4, a5, a6, a7⟩
  rcases q with ⟨b1, b2, b3, b4, b5, b6, b7⟩
  simp [Properties_t.eq, and_assoc]

theorem DiscoveredCharacteristic.eq_iff (a b : DiscoveredCharacteristic) :
    DiscoveredCharacteristic.eq a b = true ↔ a = b := by
  rcases a with ⟨a1, a2, a3, a4, a5, a6, a7⟩
  rcases b with ⟨b1, b2, b3, b4, b5, b6, b7⟩
  simp [DiscoveredCharacteristic.eq, Properties_t.eq_true_iff_props, and_assoc]

/-- C15: `operator==` of two characteristics is true if and only if the client pointers,
the UUIDs, each of the seven property bits, the declaration, value and last handles and
the connection handles are pairwise equal; `operator==` of two property sets is true if
and only if the seven bits agree; and each `operator!=` is the negation of its
`operator==`. -/
theorem equality_is_structural (a b : DiscoveredCharacteristic) (p q : Properties_t) :
    (DiscoveredCharacteristic.eq a b = true ↔
        (a.gattc = b.gattc ∧ a.uuid = b.uuid ∧
          a.props.broadcast = b.props.broadcast ∧ a.props.read = b.props.read ∧
          a.props.writeWoResp = b.props.writeWoResp ∧ a.props.write = b.props.write ∧
          a.props.notify = b.props.notify ∧ a.props.indicate = b.props.indicate ∧
          a.props.authSignedWrite = b.props.authSignedWrite ∧
          a.declHandle = b.declHandle ∧ a.valueHandle = b.valueHandle ∧
          a.lastHandle = b.lastHandle ∧ a.connHandle = b.connHandle)) ∧
      (Properties_t.eq p q = true ↔
        (p.broadcast = q.broadcast ∧ p.read = q.read ∧ p.writeWoResp = q.writeWoResp ∧
          p.write = q.write ∧ p.notify = q.notify ∧ p.indicate = q.indicate ∧
          p.authSignedWrite = q.authSignedWrite)) ∧
      DiscoveredCharacteristic.ne a b = !(DiscoveredCharacteristic.eq a b) ∧
      Properties_t.ne p q = !(Properties_t.eq p q) := by
  refine ⟨?_, ?_, rfl, rfl⟩
  · rcases a with ⟨a1, a2, ⟨x1, x2, x3, x4, x5, x6, x7⟩, a4, a5, a6, a7⟩
    rcases b with ⟨b1, b2, ⟨y1, y2, y3, y4, y5, y6, y7⟩, b4, b5, b6, b7⟩
    simp [DiscoveredCharacteristic.eq, Properties_t.eq, Properties_t.broadcast,
      Properties_t.read, Properties_t.writeWoResp, Properties_t.write, Properties_t.notify,
      Properties_t.indicate, Properties_t.authSignedWrite, and_assoc]
  · rcases p with ⟨x1, x2, x3, x4, x5, x6, x7⟩
    rcases q with ⟨y1, y2, y3, y4, y5, y6, y7⟩
    simp [Properties_t.eq, Properties_t.broadcast,
      Properties_t.read, Properties_t.writeWoResp, Properties_t.write, Properties_t.notify,
      Properties_t.indicate, Properties_t.authSignedWrite, and_assoc]

/-! ## The handle invariant -/

theorem foldl_apply_keeps (calls : List PublicCall) (c : DiscoveredCharacteristic) :
    (calls.foldl PublicCall.apply c).gattc = c.gattc ∧
      (calls.foldl PublicCall.apply c).declHandle = c.declHandle ∧
      (calls.foldl PublicCall.apply c).valueHandle = c.valueHandle ∧
      (calls.foldl PublicCall.apply c).props = c.props ∧
      (calls.foldl PublicCall.apply c).connHandle = c.connHandle := by
  induction calls generalizing c with
  | nil => exact ⟨rfl, rfl, rfl, rfl, rfl⟩
  | cons k ks ih =>
    have hk := ih (PublicCall.apply c k)
    cases k <;> exact hk

/-- C16 (counterexample): the characteristic obtained from the default constructor by
`setLastHandle(5)` has an invalid declaration handle and a valid last handle: it is
neither all valid nor the sentinel, and the handle invariant fails. -/
theorem setLastHandle_breaks_handle_invariant :
    (obtained [PublicCall.setLastHandle 5]).declHandle = INVALID_HANDLE ∧
      (obtained [PublicCall.setLastHandle 5]).lastHandle = 5 ∧
      ¬ handleInvariant (obtained [PublicCall.setLastHandle 5]) := by
  decide

/-- C16 (amended): the default-constructed characteristic is the sentinel and satisfies
the handle invariant. Every characteristic obtained from it by `setLastHandle` and
`setupLongUUID` calls keeps the null client and the invalid declaration and value
handles; its last handle is the argument of the most recent `setLastHandle`, which is
stored unchecked; and it satisfies the handle invariant if and only if that last handle
is `INVALID_HANDLE`. `setupLongUUID` changes no handle. -/
theorem obtained_handle_invariant (calls : List PublicCall) :
    handleInvariant (obtained []) ∧
      (obtained calls).gattc = none ∧
      (obtained calls).declHandle = INVALID_HANDLE ∧
      (obtained calls).valueHandle = INVALID_HANDLE ∧
      (handleInvariant (obtained calls) ↔ (obtained calls).lastHandle = INVALID_HANDLE) ∧
      (∀ last, (obtained (calls ++ [PublicCall.setLastHandle last])).lastHandle = last) ∧
      (∀ longUUID, (obtained (calls ++ [PublicCall.setupLongUUID longUUID])).lastHandle =
        (obtained calls).lastHandle) := by
  have hk := foldl_apply_keeps calls DiscoveredCharacteristic.default
  have hg : (obtained calls).gattc = none := hk.1
  have hd : (obtained calls).declHandle = INVALID_HANDLE := hk.2.1
  have hv : (obtained calls).valueHandle = INVALID_HANDLE := hk.2.2.1
  refine ⟨by decide, hg, hd, hv, ⟨?_, ?_⟩, ?_, ?_⟩
  · rintro ⟨_, _, hvalid | hsent⟩
    · exact absurd hd hvalid.1
    · exact hsent.2.2.1
  · intro hl
    refine ⟨?_, ?_, Or.inr ⟨hd, hv, hl, hg⟩⟩
    · rw [hd, hv]
    · rw [hv, hl]
  · intro last
    simp [obtained, List.foldl_append, PublicCall.apply,
      DiscoveredCharacteristic.setLastHandle]
  · intro longUUID
    simp [obtained, List.foldl_append, PublicCall.apply,
      DiscoveredCharacteristic.setupLongUUID]

/-! ## The discovery-progress handler -/

theorem deliverAll_descriptorFound (op : CCCDDiscoveryOperation)
    (ps : List DiscoveryCallbackParams_t)
    (h : ∀ p ∈ ps, p.characteristic.gattc ≠ none) :
    deliverAll (some op) (ps.map DiscoveryEvent.descriptorFound) =
      some (terminationRequests ps, some op) := by
  induction ps with
  | nil => rfl
  | cons p ps ih =>
    have hp := h p (List.mem_cons_self _ _)
    have ih' := ih (fun q hq => h q (List.mem_cons_of_mem _ hq))
    obtain ⟨g, hg⟩ := Option.ne_none_iff_exists'.1 hp
    by_cases hc : p.descriptor.uuid = CLIENT_CHARACTERISTIC_CONFIGURATION_UUID
    · simp only [List.map_cons, deliverAll, deliver,
        CCCDDiscoveryOperation.whenDiscoveredCharacteristic,
        DiscoveredCharacteristic.getGattClient, hc, hg, if_true, ih']
      simp [terminationRequests, isCCCD, hc, hg]
    · simp only [List.map_cons, deliverAll, deliver,
        CCCDDiscoveryOperation.whenDiscoveredCharacteristic, hc, if_false, ih']
      simp [terminationRequests, isCCCD, hc]

theorem terminationRequests_length (ps : List DiscoveryCallbackParams_t)
    (h : ∀ p ∈ ps, p.characteristic.gattc ≠ none) :
    (terminationRequests ps).length = (ps.filter isCCCD).length := by
  induction ps with
  | nil => rfl
  | cons p ps ih =>
    have hp := h p (List.mem_cons_self _ _)
    have ih' := ih (fun q hq => h q (List.mem_cons_of_mem _ hq))
    obtain ⟨g, hg⟩ := Option.ne_none_iff_exists'.1 hp
    unfold terminationRequests at ih' ⊢
    cases hc : isCCCD p
    · simp [List.filterMap_cons, List.filter_cons, hc, ih']
    · simp [List.filterMap_cons, List.filter_cons, hc, hg, ih']

theorem terminationRequests_all_terminate (ps : List DiscoveryCallbackParams_t) :
    ∀ e ∈ terminationRequests ps,
      ∃ g c, e = Effect.terminateCharacteristicDescriptorsDiscovery g c := by
  intro e he
  simp only [terminationRequests, List.mem_filterMap] at he
  obtain ⟨p, _, hp⟩ := he
  split at hp
  · cases hg : p.characteristic.gattc with
    | none => simp [hg] at hp
    | some g =>
      simp [hg] at hp
      exact ⟨g, p.characteristic, hp.symm⟩
  · simp at hp

theorem terminationRequests_skip_leading (pre post : List DiscoveryCallbackParams_t)
    (h : ∀ q ∈ pre, isCCCD q = false) :
    terminationRequests (pre ++ post) = terminationRequests post := by
  induction pre with
  | nil => rfl
  | cons q qs ih =>
    have hq := h q (List.mem_cons_self _ _)
    have ih' := ih (fun r hr => h r (List.mem_cons_of_mem _ hr))
    unfold terminationRequests at ih' ⊢
    simp [List.filterMap_cons, hq, ih']

/-- C17 (counterexample): the operation launched for the notify-only characteristic
receives two descriptor-found events that both carry the CCCD UUID (handles 19 and 20).
The request to terminate the discovery is issued twice: the event after the first match
makes a call on the client. -/
theorem second_cccd_requests_termination_again :
    (notifyOnly.setSubscriptionFlags acceptingClient notifyRequest 7).live =
        some ⟨notifyRequest, 7⟩ ∧
      deliverAll (some ⟨notifyRequest, 7⟩)
          [DiscoveryEvent.descriptorFound ⟨notifyOnly, cccdAt19⟩,
           DiscoveryEvent.descriptorFound ⟨notifyOnly, cccdAt20⟩] =
        some ([Effect.terminateCharacteristicDescriptorsDiscovery 1 notifyOnly,
               Effect.terminateCharacteristicDescriptorsDiscovery 1 notifyOnly],
          some ⟨notifyRequest, 7⟩) ∧
      CCCDDiscoveryOperation.whenDiscoveredCharacteristic ⟨notifyRequest, 7⟩
          ⟨notifyOnly, cccdAt20⟩ =
        some [Effect.terminateCharacteristicDescriptorsDiscovery 1 notifyOnly] := by
  decide

/-- C17 (amended): for every operation and every sequence of descriptor-found events in
which `first` is the first event with the CCCD UUID (each event carrying a
characteristic with a client): the events before `first` cause nothing; handling `first`
issues exactly one request to terminate the discovery; every event after it that does
not carry the CCCD UUID causes nothing; each further event with the CCCD UUID issues one
more request to terminate; no event after `first` issues a write or invokes a callback,
and the operation stays registered. So over the whole run the request is issued once
for each CCCD reported, and exactly once when no further CCCD follows the first. -/
theorem termination_requested_per_cccd (op : CCCDDiscoveryOperation)
    (pre post : List DiscoveryCallbackParams_t) (first : DiscoveryCallbackParams_t)
    (hpre : ∀ q ∈ pre, isCCCD q = false) (hfirst : isCCCD first = true)
    (hclient : ∀ p ∈ pre ++ first :: post, p.characteristic.gattc ≠ none) :
    ∃ atFirst afterFirst : List Effect,
      deliverAll (some op) (pre.map DiscoveryEvent.descriptorFound) = some ([], some op) ∧
      deliver (some op) (DiscoveryEvent.descriptorFound first) = some (atFirst, some op) ∧
      (atFirst.filter Effect.isTerminate).length = 1 ∧
      deliverAll (some op) (post.map DiscoveryEvent.descriptorFound) =
        some (afterFirst, some op) ∧
      deliverAll (some op) ((pre ++ first :: post).map DiscoveryEvent.descriptorFound) =
        some (atFirst ++ afterFirst, some op) ∧
      (∀ e ∈ afterFirst, e.isTerminate = true) ∧
      afterFirst.length = (post.filter isCCCD).length ∧
      afterFirst.filter Effect.isWrite = [] ∧
      (∀ cb, callbackCount cb afterFirst = 0) ∧
      (∀ p ∈ post, isCCCD p = false →
        deliver (some op) (DiscoveryEvent.descriptorFound p) = some ([], some op)) ∧
      (((atFirst ++ afterFirst).filter Effect.isTerminate).length =
        1 + (post.filter isCCCD).length) ∧
      (post.filter isCCCD = [] → afterFirst = []) := by
  have hcpre : ∀ p ∈ pre, p.characteristic.gattc ≠ none :=
    fun p hp => hclient p (List.mem_append_left _ hp)
  have hcfirst : first.characteristic.gattc ≠ none :=
    hclient first (List.mem_append_right _ (List.mem_cons_self _ _))
  have hcpost : ∀ p ∈ post, p.characteristic.gattc ≠ none :=
    fun p hp => hclient p (List.mem_append_right _ (List.mem_cons_of_mem _ hp))
  obtain ⟨g, hg⟩ := Option.ne_none_iff_exists'.1 hcfirst
  have huuid : first.descriptor.uuid = CLIENT_CHARACTERISTIC_CONFIGURATION_UUID := by
    simpa [isCCCD] using hfirst
  have hallpost := terminationRequests_all_terminate post
  have hterm : ∀ e ∈ terminationRequests post, e.isTerminate = true := by
    intro e he
    obtain ⟨g', c', rfl⟩ := hallpost e he
    rfl
  have hlen := terminationRequests_length post hcpost
  have hprenil : terminationRequests pre = [] := by
    have := terminationRequests_skip_leading pre [] hpre
    simpa [terminationRequests] using this
  have hsplit : terminationRequests (pre ++ first :: post) =
      [Effect.terminateCharacteristicDescriptorsDiscovery g first.characteristic] ++
        terminationRequests post := by
    rw [terminationRequests_skip_leading pre (first :: post) hpre]
    simp [terminationRequests, List.filterMap_cons, hfirst, hg]
  have hfilter : (terminationRequests post).filter Effect.isTerminate =
      terminationRequests post := List.filter_eq_self.2 hterm
  refine ⟨[Effect.terminateCharacteristicDescriptorsDiscovery g first.characteristic],
    terminationRequests post, ?_, ?_, rfl, deliverAll_descriptorFound op post hcpost, ?_,
    hterm, hlen, ?_, ?_, ?_, ?_, ?_⟩
  · rw [deliverAll_descriptorFound op pre hcpre, hprenil]
  · simp [deliver, CCCDDiscoveryOperation.whenDiscoveredCharacteristic,
      DiscoveredCharacteristic.getGattClient, huuid, hg]
  · rw [deliverAll_descriptorFound op (pre ++ first :: post) hclient, hsplit]
  · rw [List.filter_eq_nil_iff]
    intro e he
    obtain ⟨g', c', rfl⟩ := hallpost e he
    simp [Effect.isWrite]
  · intro cb
    unfold callbackCount
    rw [List.length_eq_zero, List.filter_eq_nil_iff]
    intro e he
    obtain ⟨g', c', rfl⟩ := hallpost e he
    simp [Effect.isCallbackOf]
  · intro p _ hp
    have hne : p.descriptor.uuid ≠ CLIENT_CHARACTERISTIC_CONFIGURATION_UUID := by
      simpa [isCCCD] using hp
    simp [deliver, CCCDDiscoveryOperation.whenDiscoveredCharacteristic, hne]
  · rw [List.filter_append, hfilter, List.length_append, hlen]
    rfl
  · intro hnil
    have h0 : (terminationRequests post).length = 0 := by rw [hlen, hnil]; rfl
    exact List.length_eq_zero.1 h0

/-- C17 (witness): a non-CCCD descriptor, the CCCD at handle 19, then another non-CCCD
descriptor, delivered to the operation with flags `notify=true, indicate=false`: the
first event causes nothing, and nothing happens after the first match. -/
theorem termination_requested_per_cccd_witness :
    ∃ atFirst afterFirst : List Effect,
      deliverAll (some ⟨notifyRequest, 7⟩)
          [DiscoveryEvent.descriptorFound ⟨notifyOnly, userDescription⟩] =
        some ([], some ⟨notifyRequest, 7⟩) ∧
      deliverAll (some ⟨notifyRequest, 7⟩)
          [DiscoveryEvent.descriptorFound ⟨notifyOnly, userDescription⟩,
           DiscoveryEvent.descriptorFound ⟨notifyOnly, cccdAt19⟩,
           DiscoveryEvent.descriptorFound ⟨notifyOnly, userDescription⟩] =
        some (atFirst ++ afterFirst, some ⟨notifyRequest, 7⟩) ∧
      (atFirst.filter Effect.isTerminate).length = 1 ∧
      afterFirst = [] := by
  obtain ⟨atFirst, afterFirst, h1, _, h3, _, h5, _, _, _, _, _, _, h12⟩ :=
    termination_requested_per_cccd ⟨notifyRequest, 7⟩
      [⟨notifyOnly, userDescription⟩] [⟨notifyOnly, userDescription⟩]
      ⟨notifyOnly, cccdAt19⟩ (by decide) (by decide) (by decide)
  exact ⟨atFirst, afterFirst, h1, h5, h3, h12 (by decide)⟩

/-- C18: for a descriptor-found event whose descriptor UUID is not the CCCD UUID, the
discovery-progress handler has no effect: no call on the client (no write, no request to
terminate), no invocation of the completion callback; and the operation is afterwards
the same operation, with the same flags and the same callback, still registered. -/
theorem whenDiscoveredCharacteristic_ignores_other_descriptors
    (op : CCCDDiscoveryOperation) (params : DiscoveryCallbackParams_t)
    (h : params.descriptor.uuid ≠ CLIENT_CHARACTERISTIC_CONFIGURATION_UUID) :
    op.whenDiscoveredCharacteristic params = some [] ∧
      deliver (some op) (DiscoveryEvent.descriptorFound params) = some ([], some op) := by
  have h1 : op.whenDiscoveredCharacteristic params = some [] := by
    simp [CCCDDiscoveryOperation.whenDiscoveredCharacteristic, h]
  exact ⟨h1, by simp [deliver, h1]⟩

/-- C18 (witness): the user-description descriptor (0x2901) at handle 18. -/
theorem whenDiscoveredCharacteristic_ignores_other_descriptors_witness :
    CCCDDiscoveryOperation.whenDiscoveredCharacteristic ⟨notifyRequest, 7⟩
        ⟨notifyOnly, userDescription⟩ = some [] ∧
      deliver (some ⟨notifyRequest, 7⟩)
          (DiscoveryEvent.descriptorFound ⟨notifyOnly, userDescription⟩) =
        some ([], some ⟨notifyRequest, 7⟩) :=
  whenDiscoveredCharacteristic_ignores_other_descriptors ⟨notifyRequest, 7⟩
    ⟨notifyOnly, userDescription⟩ (by decide)

/-! ## The default characteristic and `setLastHandle` -/

/-- C19: the default-constructed characteristic has a null client, all seven property
bits false and the declaration, value and last handles `INVALID_HANDLE`. On it, whatever
the client record and the arguments, `read`, `write` and `writeWoResponse` return
`BLE_ERROR_OPERATION_NOT_PERMITTED`, `discoverDescriptors` returns
`BLE_ERROR_INVALID_STATE` and `setSubscriptionFlags` returns `BLE_ERROR_INVALID_PARAM`
for every flags value, each without any effect: the property checks come first. -/
theorem default_characteristic_is_sentinel (cl : GattClient) :
    DiscoveredCharacteristic.default.gattc = none ∧
      DiscoveredCharacteristic.default.props =
        ⟨false, false, false, false, false, false, false⟩ ∧
      DiscoveredCharacteristic.default.declHandle = INVALID_HANDLE ∧
      DiscoveredCharacteristic.default.valueHandle = INVALID_HANDLE ∧
      DiscoveredCharacteristic.default.lastHandle = INVALID_HANDLE ∧
      (∀ offset, DiscoveredCharacteristic.default.read cl offset =
        ⟨ble_error_t.BLE_ERROR_OPERATION_NOT_PERMITTED, []⟩) ∧
      (∀ length value, DiscoveredCharacteristic.default.write cl length value =
        ⟨ble_error_t.BLE_ERROR_OPERATION_NOT_PERMITTED, []⟩) ∧
      (∀ length value, DiscoveredCharacteristic.default.writeWoResponse cl length value =
        ⟨ble_error_t.BLE_ERROR_OPERATION_NOT_PERMITTED, []⟩) ∧
      (∀ onDiscovered onTermination,
        DiscoveredCharacteristic.default.discoverDescriptors cl onDiscovered onTermination =
          ⟨ble_error_t.BLE_ERROR_INVALID_STATE, []⟩) ∧
      (∀ flags cb, DiscoveredCharacteristic.default.setSubscriptionFlags cl flags cb =
        ⟨ble_error_t.BLE_ERROR_INVALID_PARAM, [], none⟩) := by
  refine ⟨rfl, rfl, rfl, rfl, rfl, fun _ => rfl, fun _ _ => rfl, fun _ _ => rfl,
    fun _ _ => rfl, fun flags cb => ?_⟩
  exact setSubscriptionFlags_of_rejects cl _ flags cb (Or.inl ⟨rfl, rfl⟩)

/-- C20: `setLastHandle(h)` changes the last handle and nothing else: afterwards
`getLastHandle()` is `h`, and the UUID, the properties, the declaration handle, the value
handle, the connection handle and the client pointer are what they were. Two
characteristics that are equal under `operator==` are equal after `setLastHandle(h)` on
one and `setLastHandle(h2)` on the other if and only if `h = h2`, and
`setLastHandle(getLastHandle())` gives back the same characteristic. -/
theorem setLastHandle_changes_only_last_handle (c : DiscoveredCharacteristic) (h : Nat) :
    (c.setLastHandle h).getLastHandle = h ∧
      (c.setLastHandle h).getUUID = c.getUUID ∧
      (c.setLastHandle h).getProperties = c.getProperties ∧
      (c.setLastHandle h).getDeclHandle = c.getDeclHandle ∧
      (c.setLastHandle h).getValueHandle = c.getValueHandle ∧
      (c.setLastHandle h).getConnectionHandle = c.getConnectionHandle ∧
      (c.setLastHandle h).getGattClient = c.getGattClient ∧
      (∀ (b : DiscoveredCharacteristic) (h2 : Nat), DiscoveredCharacteristic.eq c b = true →
        (DiscoveredCharacteristic.eq (c.setLastHandle h) (b.setLastHandle h2) = true ↔
          h = h2)) ∧
      c.setLastHandle c.getLastHandle = c ∧
      DiscoveredCharacteristic.eq (c.setLastHandle c.getLastHandle) c = true := by
  refine ⟨rfl, rfl, rfl, rfl, rfl, rfl, rfl, ?_, rfl, ?_⟩
  · intro b h2 hcb
    have hb : c = b := (DiscoveredCharacteristic.eq_iff c b).1 hcb
    subst hb
    rw [DiscoveredCharacteristic.eq_iff]
    constructor
    · intro he
      exact congrArg DiscoveredCharacteristic.lastHandle he
    · intro he
      rw [he]
  · exact (DiscoveredCharacteristic.eq_iff _ _).2 rfl

end BLE
